import Mathlib

/-!
Shallow embedding of the tor-bot repository's signal-detection and
trade-setup logic, and proofs of the specification's claims about it.

Prices, indicator values and risk quantities are modelled as exact
rationals (`ℚ`).  A pandas value that may be NaN / missing is modelled as
`Option ℚ` (`none` = NaN or insufficient history); where the Python code
relies on IEEE special values (`inf`, `NaN`) the embedding reproduces the
resulting branch behaviour explicitly.
-/

namespace TorBot

/-- One OHLCV candle, as carried in the pandas frames of the bots
(`Open`, `High`, `Low`, `Close`, `Volume`). -/
structure Candle where
  o : ℚ
  h : ℚ
  l : ℚ
  c : ℚ
  v : ℚ
  deriving DecidableEq, Repr

/-- Default candle used for total list indexing (never observed when the
index is in range). -/
def dC : Candle := ⟨0, 0, 0, 0, 0⟩

/-- Gap direction as tagged by `detect_fair_value_gaps`. -/
inductive FvgDir where
  | bearish
  | bullish
  deriving DecidableEq, Repr

/-- Embeds the body of the loop of `detect_fair_value_gaps`
(src/fairvaluegap.py) / `detect_fvg` (src/hybrid-liquiditygrab-breakout.py)
at one index `i`: `prev_high = High[i-2]`, `prev_low = Low[i-2]`,
`curr_open = Open[i]`; bearish gap `(prev_high, curr_open)` when
`curr_open > prev_high`, else bullish gap `(curr_open, prev_low)` when
`curr_open < prev_low`. -/
def fvgAt (df : List Candle) (i : ℕ) : Option (ℕ × FvgDir × ℚ × ℚ) :=
  let prev_high := (df.getD (i - 2) dC).h
  let prev_low := (df.getD (i - 2) dC).l
  let curr_open := (df.getD i dC).o
  if curr_open > prev_high then some (i, FvgDir.bearish, prev_high, curr_open)
  else if curr_open < prev_low then some (i, FvgDir.bullish, curr_open, prev_low)
  else none

/-- `detect_fair_value_gaps(df)`: the loop `for i in range(2, len(df))`,
collecting the detected gaps in index order. -/
def detect_fair_value_gaps (df : List Candle) : List (ℕ × FvgDir × ℚ × ℚ) :=
  ((List.range df.length).drop 2).filterMap (fvgAt df)

/-- Entry price computed from an emitted gap tuple in `main`
(src/fairvaluegap.py: `entry = (last_gap[2] + last_gap[3]) / 2`). -/
def fvg_entry (g : ℕ × FvgDir × ℚ × ℚ) : ℚ := (g.2.2.1 + g.2.2.2) / 2

/-- The three-candle series of spec §8: `high[0]=1.10, low[0]=1.095`,
`open[2]=1.102`; the middle candle and remaining fields are benign. -/
def fvgExample : List Candle :=
  [⟨1098/1000, 1100/1000, 1095/1000, 1099/1000, 1⟩,
   ⟨1099/1000, 1101/1000, 1096/1000, 1100/1000, 1⟩,
   ⟨1102/1000, 1103/1000, 1098/1000, 1102/1000, 1⟩]

/-! ## Indicator library (`get_rsi`, `get_atr` of src/multi_symbol_bot.py and
src/eur_usd_mtf_reverse_bot.py) -/

/-- Close-to-close difference `delta[j] = Close[j] - Close[j-1]`
(`df["Close"].diff()`); at `j = 0` the pandas value is NaN, which the
callers below never read. -/
def delta (cs : List ℚ) (j : ℕ) : ℚ := cs.getD j 0 - cs.getD (j - 1) 0

/-- `delta.clip(lower=0).rolling(period).mean()` evaluated at row `i`:
the mean of `max(delta[j], 0)` over the window `j = i-period+1 .. i`.
Meaningful only when `period ≤ i < cs.length` (otherwise the pandas value
is NaN because the window is incomplete or contains `delta[0] = NaN`). -/
def avg_gain (cs : List ℚ) (period i : ℕ) : ℚ :=
  (((List.range period).map fun k => max (delta cs (i - k)) 0).sum) / period

/-- `(-delta.clip(upper=0)).rolling(period).mean()` evaluated at row `i`:
the mean of `max(-delta[j], 0)` over the window `j = i-period+1 .. i`. -/
def avg_loss (cs : List ℚ) (period i : ℕ) : ℚ :=
  (((List.range period).map fun k => max (-delta cs (i - k)) 0).sum) / period

/-- `get_rsi` evaluated at row `i`, with NaN modelled as `none`.

The pandas computation is `rs = gain/loss; rsi = 100 - 100/(1+rs)` in IEEE
floats: for `i < period` (or out of range) the rolling means are NaN and
so is the result; when `avg_loss > 0` the formula is ordinary arithmetic;
when `avg_loss = 0` and `avg_gain > 0` then `rs = +inf` and
`rsi = 100 - 100/inf = 100`; when both averages are `0` then `rs = 0/0 =
NaN` and the result is NaN. -/
def get_rsi (cs : List ℚ) (period i : ℕ) : Option ℚ :=
  if i < period ∨ cs.length ≤ i then none
  else
    let g := avg_gain cs period i
    let l := avg_loss cs period i
    if 0 < l then some (100 - 100 / (1 + g / l))
    else if 0 < g then some 100
    else none

/-- True range of row `i` (`pd.concat([hl, hc, lc], axis=1).max(axis=1)`).
At `i = 0` the shifted close is NaN and the pandas row-max skips it, so
the value degenerates to `High - Low`. -/
def true_range (df : List Candle) (i : ℕ) : ℚ :=
  let cur := df.getD i dC
  if i = 0 then cur.h - cur.l
  else
    let pc := (df.getD (i - 1) dC).c
    max (cur.h - cur.l) (max |cur.h - pc| |cur.l - pc|)

/-- `get_atr` evaluated at row `i`: `tr.rolling(period).mean()`, NaN
(`none`) while the window is incomplete.  Since `true_range` is defined at
every row (including row 0), the first defined value is at
`i = period - 1`. -/
def get_atr (df : List Candle) (period i : ℕ) : Option ℚ :=
  if i + 1 < period ∨ df.length ≤ i then none
  else some ((((List.range period).map fun k => true_range df (i - k)).sum) / period)

/-! ## Multi-timeframe reversal detector and dedup gate
(src/multi_symbol_bot.py `main`, `calculate_zones`) -/

/-- Minimum of a window (total on nonempty lists, which is the only use). -/
def wmin (xs : List ℚ) : ℚ := xs.foldr min (xs.headD 0)

/-- Maximum of a window (total on nonempty lists, which is the only use). -/
def wmax (xs : List ℚ) : ℚ := xs.foldr max (xs.headD 0)

/-- Mean of a window. -/
def wmean (xs : List ℚ) : ℚ := xs.sum / xs.length

/-- `calculate_zones`: `df["Low"].rolling(window).min().iloc[-1]` — NaN
(`none`) when fewer than `window` rows exist, else the minimum of the last
`window` lows. -/
def support? (df : List Candle) (window : ℕ) : Option ℚ :=
  if df.length < window then none
  else some (wmin ((df.drop (df.length - window)).map Candle.l))

/-- `calculate_zones`: `df["High"].rolling(window).max().iloc[-1]`. -/
def resistance? (df : List Candle) (window : ℕ) : Option ℚ :=
  if df.length < window then none
  else some (wmax ((df.drop (df.length - window)).map Candle.h))

/-- The two signal kinds of the multi-timeframe bot. -/
inductive SigType where
  | buy
  | sell
  deriving DecidableEq, Repr

/-- The signal decision of src/multi_symbol_bot.py `main` over the scalar
indicator values:
`if (30 < rsi_15m < 45) and (close > open_price) and (close <= support)
and (rsi_1h < 50): BUY
elif (55 > rsi_15m > 40) and (close < open_price) and (close >= resistance)
and (rsi_1h > 50): SELL`. -/
def mtf_signal (rsi_fast rsi_slow close openp support resistance : ℚ) :
    Option SigType :=
  if 30 < rsi_fast ∧ rsi_fast < 45 ∧ openp < close ∧ close ≤ support ∧
      rsi_slow < 50 then
    some SigType.buy
  else if 40 < rsi_fast ∧ rsi_fast < 55 ∧ close < openp ∧ resistance ≤ close ∧
      50 < rsi_slow then
    some SigType.sell
  else none

/-- Close column of a frame. -/
def closes (df : List Candle) : List ℚ := df.map Candle.c

/-- One evaluation of the multi-timeframe detector on a synchronized
fast/slow pair of candle series: the scalars extracted in `main`
(`rsi_15m`, `rsi_1h`, `support`, `resistance`, last close/open of the
fast series) fed to the signal decision.  If any extracted scalar is NaN
(`none`), every band comparison on it is False in Python and no signal is
produced, modelled here by collapsing to `none`. -/
def mtf_signal_of_series (fast slow : List Candle) : Option SigType :=
  match get_rsi (closes fast) 14 (fast.length - 1),
        get_rsi (closes slow) 14 (slow.length - 1),
        support? fast 20, resistance? fast 20, fast.getLast? with
  | some rf, some rs, some sup, some res, some lastC =>
      mtf_signal rf rs lastC.c lastC.o sup res
  | _, _, _, _, _ => none

/-- The dedup gate of `main`
(`if signal_type and last_signals.get(label) != signal_type: ... send ...;
last_signals[label] = signal_type`): given the stored fingerprint and the
freshly detected signal, returns whether an alert is forwarded and the new
stored fingerprint. -/
def dedup_step (last sig : Option SigType) : Bool × Option SigType :=
  match sig with
  | none => (false, last)
  | some s => if last = some s then (false, last) else (true, some s)

/-- One full pipeline tick for one symbol: detect on the (fast, slow)
series pair, then pass the result through the dedup gate. -/
def run_tick (st : Option SigType) (fast slow : List Candle) :
    Bool × Option SigType :=
  dedup_step st (mtf_signal_of_series fast slow)

/-! ## Session windows (src/liquiditygrab.py `is_within_trading_hours`).
UTC times of day are modelled as minutes since midnight. -/

/-- Membership of time-of-day `now` in one session window, translating the
two branches of the loop body of `is_within_trading_hours`:
`if start < end and start <= now_utc <= end` /
`elif start > end and (now_utc >= start or now_utc <= end)`. -/
def in_session (start endT now : ℕ) : Bool :=
  (start < endT && start ≤ now && now ≤ endT) ||
  (endT < start && (start ≤ now || now ≤ endT))

/-- The `SESSIONS` table (src/liquiditygrab.py), times in minutes. -/
def SESSIONS : List (String × ℕ × ℕ) :=
  [("Sydney", 21 * 60, 6 * 60), ("Tokyo", 0, 8 * 60),
   ("London", 8 * 60, 16 * 60), ("New York", 13 * 60, 21 * 60)]

/-- `is_within_trading_hours`: the name of the first session whose window
contains `now`, or `none`. -/
def is_within_trading_hours (now : ℕ) : Option String :=
  (SESSIONS.find? fun s => in_session s.2.1 s.2.2 now).map Prod.fst

/-! ## Rounding (Python `round`, banker's rounding) -/

/-- Python's `round` to an integer: round half to even. -/
def roundHalfEven (x : ℚ) : ℤ :=
  if Int.fract x < 1 / 2 then ⌊x⌋
  else if 1 / 2 < Int.fract x then ⌊x⌋ + 1
  else if 2 ∣ ⌊x⌋ then ⌊x⌋ else ⌊x⌋ + 1

/-- Python's `round(x, 2)`. -/
def round2 (x : ℚ) : ℚ := (roundHalfEven (100 * x) : ℚ) / 100

/-! ## Trade setup calculator
(src/hybrid-liquiditygrab-breakout.py `calculate_trade_details`).
The module globals `ACCOUNT_BALANCE` and `RISK_PERCENT` read from the
environment are passed as explicit parameters. -/

/-- Order direction strings `"SELL LIMIT"` / `"BUY LIMIT"`. -/
inductive TradeDir where
  | sellLimit
  | buyLimit
  deriving DecidableEq, Repr

/-- The tuple returned by `calculate_trade_details`. -/
structure TradeDetails where
  sl : ℚ
  tp : ℚ
  lot_size : ℚ
  profit_target : ℚ
  loss_target : ℚ
  deriving DecidableEq, Repr

/-- `sl_buffer = pip_increment * 10`. -/
def sl_buffer (pip_increment : ℚ) : ℚ := pip_increment * 10

/-- `tp_buffer = pip_increment * 20`. -/
def tp_buffer (pip_increment : ℚ) : ℚ := pip_increment * 20

/-- Stop-loss price: `entry + sl_buffer` for a sell, `entry - sl_buffer`
for a buy. -/
def stop_price (entry : ℚ) (d : TradeDir) (pip_increment : ℚ) : ℚ :=
  match d with
  | TradeDir.sellLimit => entry + sl_buffer pip_increment
  | TradeDir.buyLimit => entry - sl_buffer pip_increment

/-- Take-profit price: `entry - tp_buffer` for a sell, `entry + tp_buffer`
for a buy. -/
def target_price (entry : ℚ) (d : TradeDir) (pip_increment : ℚ) : ℚ :=
  match d with
  | TradeDir.sellLimit => entry - tp_buffer pip_increment
  | TradeDir.buyLimit => entry + tp_buffer pip_increment

/-- `risk_amount = ACCOUNT_BALANCE * (RISK_PERCENT / 100)`. -/
def risk_amount (account_balance risk_percent : ℚ) : ℚ :=
  account_balance * (risk_percent / 100)

/-- `loss_pips = (loss_price_diff / pip_increment) if pip_increment != 0
else 0`. -/
def loss_pips (entry sl pip_increment : ℚ) : ℚ :=
  if pip_increment ≠ 0 then |entry - sl| / pip_increment else 0

/-- `lot_size = (risk_amount / (loss_pips * pip_value)) if
(loss_pips * pip_value) != 0 else 0.01`. -/
def lot_size_raw (risk lp pip_value : ℚ) : ℚ :=
  if lp * pip_value ≠ 0 then risk / (lp * pip_value) else 1 / 100

/-- `calculate_trade_details(entry, direction, pip_increment, pip_value)`:
returns `(sl, tp, round(lot_size, 2), profit_price_diff,
loss_price_diff)`. -/
def calculate_trade_details (entry : ℚ) (d : TradeDir)
    (pip_increment pip_value account_balance risk_percent : ℚ) :
    TradeDetails :=
  let sl := stop_price entry d pip_increment
  let tp := target_price entry d pip_increment
  let risk := risk_amount account_balance risk_percent
  let lpd := |entry - sl|
  let lp := loss_pips entry sl pip_increment
  let lot := round2 (lot_size_raw risk lp pip_value)
  ⟨sl, tp, lot, |tp - entry|, lpd⟩

/-! ## Liquidity-grab / breakout detector
(src/hybrid-liquiditygrab-breakout.py `detect_liquidity`, identical logic
in src/hybrid-liquiditygrab-breakout_working.py) -/

/-- A pandas `rolling(w)` column: the value at row `i` is `none` (NaN)
while fewer than `w` rows are available, else `op` applied to the window
of the `w` rows ending at `i`. -/
def rollApply (op : List ℚ → ℚ) (w : ℕ) (xs : List ℚ) : List (Option ℚ) :=
  (List.range xs.length).map fun i =>
    if i + 1 < w then none else some (op ((xs.drop (i + 1 - w)).take w))

/-- The four signal labels of `detect_liquidity`. -/
inductive LiqKind where
  | grabBull
  | grabBear
  | breakBull
  | breakBear
  deriving DecidableEq, Repr

/-- The loop body of `detect_liquidity` at index `i`: reads `high_roll`
and `low_roll` at row `i - 1`, `vol_mean` at row `i`, the raw prices at
row `i`, and appends the grab signal (if any) then the breakout signal
(if any).  A NaN `vol_avg` makes both breakout comparisons False in
Python, modelled by the inner `match`. -/
def liqBlock (df : List Candle) (i : ℕ) : List (ℕ × LiqKind × ℚ) :=
  let cur := df.getD i dC
  match (rollApply wmax 20 (df.map Candle.h)).getD (i - 1) none,
        (rollApply wmin 20 (df.map Candle.l)).getD (i - 1) none with
  | some high_roll, some low_roll =>
    let grabs :=
      if cur.l < low_roll ∧ low_roll < cur.c then [(i, LiqKind.grabBull, cur.l)]
      else if high_roll < cur.h ∧ cur.c < high_roll then
        [(i, LiqKind.grabBear, cur.h)]
      else []
    let breaks :=
      match (rollApply wmean 20 (df.map Candle.v)).getD i none with
      | some vol_avg =>
        if high_roll < cur.c ∧ 3 / 2 * vol_avg < cur.v then
          [(i, LiqKind.breakBull, cur.c)]
        else if cur.c < low_roll ∧ 3 / 2 * vol_avg < cur.v then
          [(i, LiqKind.breakBear, cur.c)]
        else []
      | none => []
    grabs ++ breaks
  | _, _ => []

/-- `detect_liquidity(df)`: the loop `for i in range(20, len(df))`. -/
def detect_liquidity (df : List Candle) : List (ℕ × LiqKind × ℚ) :=
  ((List.range df.length).drop 20).flatMap (liqBlock df)

/-- The loop body as the claim words it: identical to `liqBlock` except
that the rolling mean volume is also read at row `i - 1`.  This is a
formalisation of the claim's sentence, not of the source. -/
def liqBlockClaimed (df : List Candle) (i : ℕ) : List (ℕ × LiqKind × ℚ) :=
  let cur := df.getD i dC
  match (rollApply wmax 20 (df.map Candle.h)).getD (i - 1) none,
        (rollApply wmin 20 (df.map Candle.l)).getD (i - 1) none with
  | some high_roll, some low_roll =>
    let grabs :=
      if cur.l < low_roll ∧ low_roll < cur.c then [(i, LiqKind.grabBull, cur.l)]
      else if high_roll < cur.h ∧ cur.c < high_roll then
        [(i, LiqKind.grabBear, cur.h)]
      else []
    let breaks :=
      match (rollApply wmean 20 (df.map Candle.v)).getD (i - 1) none with
      | some vol_avg =>
        if high_roll < cur.c ∧ 3 / 2 * vol_avg < cur.v then
          [(i, LiqKind.breakBull, cur.c)]
        else if cur.c < low_roll ∧ 3 / 2 * vol_avg < cur.v then
          [(i, LiqKind.breakBear, cur.c)]
        else []
      | none => []
    grabs ++ breaks
  | _, _ => []

/-- The detector as the claim words it (volume mean at the prior bar). -/
def detect_liquidity_claimed (df : List Candle) : List (ℕ × LiqKind × ℚ) :=
  ((List.range df.length).drop 20).flatMap (liqBlockClaimed df)

/-- The loop body of `detect_liquidity` with the rolling references spelled
out as explicit window aggregates: extrema over the 20 bars ending at
`i - 1`, mean volume over the 20 bars ending at `i`. -/
def liqBlockWindows (df : List Candle) (i : ℕ) : List (ℕ × LiqKind × ℚ) :=
  let cur := df.getD i dC
  let high_roll := wmax (((df.map Candle.h).drop (i - 20)).take 20)
  let low_roll := wmin (((df.map Candle.l).drop (i - 20)).take 20)
  let vol_avg := wmean (((df.map Candle.v).drop (i + 1 - 20)).take 20)
  (if cur.l < low_roll ∧ low_roll < cur.c then [(i, LiqKind.grabBull, cur.l)]
   else if high_roll < cur.h ∧ cur.c < high_roll then
     [(i, LiqKind.grabBear, cur.h)]
   else []) ++
  (if high_roll < cur.c ∧ 3 / 2 * vol_avg < cur.v then
     [(i, LiqKind.breakBull, cur.c)]
   else if cur.c < low_roll ∧ 3 / 2 * vol_avg < cur.v then
     [(i, LiqKind.breakBear, cur.c)]
   else [])

/-- A flat candle with a given volume. -/
def flatC (v : ℚ) : Candle := ⟨1, 1, 1, 1, v⟩

/-- 21-bar series separating the two volume-reference conventions: a huge
volume spike at bar 0, quiet volume after it, and a breakout bar at index
20. -/
def liqExample : List Candle :=
  flatC 100 :: (List.replicate 19 (flatC 1) ++ [⟨1, 2, 1, 2, 2⟩])

/-! ## Profit calculator (src/app/calculator.py `calculate_profit`,
duplicated inline in src/profit_calc.py `profit_calculator_tab`) -/

/-- Python's `needle in hay` substring test. -/
def strContains (hay needle : String) : Bool :=
  1 < (hay.splitOn needle).length

/-- `calculate_profit(symbol, direction, open_price, close_price,
lot_size)`:
`units = lot_size * 100000 if "USD" in symbol and "BTC" not in symbol else
lot_size`;
`price_diff = close_price - open_price if direction == "Buy" else
open_price - close_price`; result `round(units * price_diff, 2)`. -/
def calculate_profit (symbol direction : String)
    (open_price close_price lot_size : ℚ) : ℚ :=
  let units :=
    if strContains symbol "USD" && !strContains symbol "BTC" then
      lot_size * 100000
    else lot_size
  let price_diff :=
    if direction = "Buy" then close_price - open_price
    else open_price - close_price
  round2 (units * price_diff)

/-! ## Concrete input series used by witnesses and counterexamples -/

/-- 15 identical closes: every delta is 0, so both RSI rolling averages
vanish. -/
def flat15 : List ℚ := List.replicate 15 1

/-- 15 strictly increasing closes: every delta is +1. -/
def incr15 : List ℚ := [0, 1, 2, 3, 4, 5, 6, 7, 8, 9, 10, 11, 12, 13, 14]

/-- Candle with alternating closes 1, 2, 1, 2, … -/
def altC (k : ℕ) : Candle :=
  if k % 2 = 0 then ⟨1, 3, 0, 1, 1⟩ else ⟨1, 3, 0, 2, 1⟩

/-- 21-bar fast series with alternating closes (RSI and zones defined). -/
def fastEx : List Candle := (List.range 21).map altC

/-- 14 flat candles: every true range is 0. -/
def atrFlat : List Candle := List.replicate 14 (flatC 1)

/-! ## Helper lemmas -/

lemma roundHalfEven_intCast (n : ℤ) : roundHalfEven (n : ℚ) = n := by
  unfold roundHalfEven
  rw [Int.fract_intCast, Int.floor_intCast]
  norm_num

lemma floor_neg_of_fract_ne_zero {x : ℚ} (hx : Int.fract x ≠ 0) :
    ⌊-x⌋ = -⌊x⌋ - 1 := by
  have h1 : (-x) - Int.fract (-x) = ((⌊-x⌋ : ℤ) : ℚ) := Int.self_sub_fract (-x)
  have h2 : x - Int.fract x = ((⌊x⌋ : ℤ) : ℚ) := Int.self_sub_fract x
  rw [Int.fract_neg hx] at h1
  have h3 : ((⌊-x⌋ : ℤ) : ℚ) = ((-⌊x⌋ - 1 : ℤ) : ℚ) := by push_cast; linarith
  exact_mod_cast h3

lemma roundHalfEven_neg (x : ℚ) : roundHalfEven (-x) = -roundHalfEven x := by
  by_cases h0 : Int.fract x = 0
  · have hn : Int.fract (-x) = 0 := Int.fract_neg_eq_zero.mpr h0
    have h2 : x = ((⌊x⌋ : ℤ) : ℚ) := by
      have := Int.self_sub_fract x; rw [h0] at this; linarith
    have hfl : ⌊-x⌋ = -⌊x⌋ := by
      conv_lhs => rw [h2, ← Int.cast_neg, Int.floor_intCast]
    unfold roundHalfEven
    rw [h0, hn, hfl]
    norm_num
  · have hn : Int.fract (-x) = 1 - Int.fract x := Int.fract_neg h0
    have hfl : ⌊-x⌋ = -⌊x⌋ - 1 := floor_neg_of_fract_ne_zero h0
    have hpos : 0 < Int.fract x :=
      lt_of_le_of_ne (Int.fract_nonneg x) (Ne.symm h0)
    have hlt : Int.fract x < 1 := Int.fract_lt_one x
    unfold roundHalfEven
    rcases lt_trichotomy (Int.fract x) (1 / 2) with h | h | h
    · have c1 : ¬(1 - Int.fract x < 1 / 2) := by linarith
      have c2 : (1 : ℚ) / 2 < 1 - Int.fract x := by linarith
      rw [hn, hfl, if_neg c1, if_pos c2, if_pos h]
      ring
    · have c1 : ¬(1 - Int.fract x < 1 / 2) := by rw [h]; norm_num
      have c2 : ¬((1 : ℚ) / 2 < 1 - Int.fract x) := by rw [h]; norm_num
      have c3 : ¬(Int.fract x < 1 / 2) := by rw [h]; norm_num
      have c4 : ¬((1 : ℚ) / 2 < Int.fract x) := by rw [h]; norm_num
      rw [hn, hfl, if_neg c1, if_neg c2, if_neg c3, if_neg c4]
      by_cases hd : 2 ∣ ⌊x⌋
      · have hd2 : ¬(2 ∣ (-⌊x⌋ - 1)) := by omega
        rw [if_pos hd, if_neg hd2]
        ring
      · have hd2 : 2 ∣ (-⌊x⌋ - 1) := by omega
        rw [if_neg hd, if_pos hd2]
        ring
    · have c1 : 1 - Int.fract x < 1 / 2 := by linarith
      have c2 : ¬(Int.fract x < 1 / 2) := by linarith
      rw [hn, hfl, if_pos c1, if_neg c2, if_pos h]
      ring

lemma round2_neg (x : ℚ) : round2 (-x) = -round2 x := by
  unfold round2
  rw [show (100 : ℚ) * -x = -(100 * x) by ring, roundHalfEven_neg]
  push_cast
  ring

lemma round2_intCast (n : ℤ) : round2 (n : ℚ) = n / 100 * 100 := by
  unfold round2
  rw [show (100 : ℚ) * (n : ℚ) = ((100 * n : ℤ) : ℚ) by push_cast; ring,
    roundHalfEven_intCast]
  push_cast
  ring

lemma round2_one : round2 1 = 1 := by
  have h : round2 ((1 : ℤ) : ℚ) = 1 / 100 * 100 := round2_intCast 1
  norm_num at h
  exact h

lemma round2_hundredth : round2 ((100 : ℚ)⁻¹) = 100⁻¹ := by
  unfold round2
  rw [show (100 : ℚ) * (100 : ℚ)⁻¹ = ((1 : ℤ) : ℚ) by norm_num,
    roundHalfEven_intCast]
  norm_num

lemma round2_one_div_hundred : round2 (1 / 100 : ℚ) = 1 / 100 := by
  rw [one_div, round2_hundredth]

lemma getD_replicate {α : Type} (n : ℕ) (a d : α) (j : ℕ) (h : j < n) :
    (List.replicate n a).getD j d = a := by
  rw [List.getD_eq_getElem?_getD, List.getElem?_replicate, if_pos h]
  rfl

lemma foldr_max_replicate (n : ℕ) (a : ℚ) :
    List.foldr max a (List.replicate n a) = a := by
  induction n with
  | zero => rfl
  | succ n ih => rw [List.replicate_succ, List.foldr_cons, ih, max_self]

lemma foldr_min_replicate (n : ℕ) (a : ℚ) :
    List.foldr min a (List.replicate n a) = a := by
  induction n with
  | zero => rfl
  | succ n ih => rw [List.replicate_succ, List.foldr_cons, ih, min_self]

lemma rollApply_getD (op : List ℚ → ℚ) (w : ℕ) (xs : List ℚ) (j : ℕ)
    (hj : j < xs.length) (hw : w ≤ j + 1) :
    (rollApply op w xs).getD j none =
      some (op ((xs.drop (j + 1 - w)).take w)) := by
  unfold rollApply
  rw [List.getD_eq_getElem?_getD, List.getElem?_map, List.getElem?_range hj]
  simp [Nat.not_lt.mpr hw]

lemma dedup_step_second_run (st sig : Option SigType) :
    (dedup_step (dedup_step st sig).2 sig).1 = false := by
  match sig with
  | none => simp [dedup_step]
  | some s =>
    by_cases h : st = some s
    · simp [dedup_step, h]
    · simp [dedup_step, h]

/-! ## Claims -/

/-- C8: a session window with `start > end` (wrapping midnight) contains a
UTC time of day `t` iff `t ≥ start` or `t ≤ end`; a window with
`start < end` contains `t` iff `start ≤ t ≤ end`; in particular the
(21:00, 06:00) window is active at 23:30 and at 02:00 and inactive at
12:00. -/
theorem C8_session_window :
    (∀ s e t : ℕ, e < s → (in_session s e t = true ↔ s ≤ t ∨ t ≤ e)) ∧
    (∀ s e t : ℕ, s < e → (in_session s e t = true ↔ s ≤ t ∧ t ≤ e)) ∧
    in_session (21 * 60) (6 * 60) (23 * 60 + 30) = true ∧
    in_session (21 * 60) (6 * 60) (2 * 60) = true ∧
    in_session (21 * 60) (6 * 60) (12 * 60) = false := by
  refine ⟨?_, ?_, by decide, by decide, by decide⟩
  · intro s e t h
    have h2 : ¬s < e := Nat.lt_asymm h
    simp [in_session, h, h2]
  · intro s e t h
    have h2 : ¬e < s := Nat.lt_asymm h
    simp [in_session, h, h2]

/-- Witness for C8 at the concrete wrapping window (21:00, 06:00) and
t = 23:30. -/
theorem C8_witness :
    (6 * 60 < 21 * 60 ∧
      (in_session (21 * 60) (6 * 60) (23 * 60 + 30) = true ↔
        21 * 60 ≤ 23 * 60 + 30 ∨ 23 * 60 + 30 ≤ 6 * 60)) :=
  ⟨by decide, C8_session_window.1 (21 * 60) (6 * 60) (23 * 60 + 30) (by decide)⟩

/-- C7: the dedup gate forwards exactly one alert for two consecutive
identical signals, forwards again on a changed direction, and re-running a
full pipeline tick on unchanged series and unchanged state forwards
nothing. -/
theorem C7_dedup_gate :
    (∀ (last : Option SigType) (s : SigType), last ≠ some s →
      (dedup_step last (some s)).1 = true ∧
      (dedup_step (dedup_step last (some s)).2 (some s)).1 = false) ∧
    (∀ s t : SigType, s ≠ t →
      (dedup_step (dedup_step none (some s)).2 (some t)).1 = true) ∧
    (∀ (st : Option SigType) (fast slow : List Candle),
      (run_tick (run_tick st fast slow).2 fast slow).1 = false) := by
  refine ⟨?_, ?_, ?_⟩
  · intro last s h
    simp [dedup_step, h]
  · intro s t h
    simp [dedup_step, Option.some_inj, h]
  · intro st fast slow
    unfold run_tick
    exact dedup_step_second_run st (mtf_signal_of_series fast slow)

/-- Witness for C7 with an empty state and a Buy fingerprint. -/
theorem C7_witness :
    ((none : Option SigType) ≠ some SigType.buy) ∧
    ((dedup_step none (some SigType.buy)).1 = true ∧
      (dedup_step (dedup_step none (some SigType.buy)).2
        (some SigType.buy)).1 = false) :=
  ⟨by decide, C7_dedup_gate.1 none SigType.buy (by decide)⟩

/-- C6 counterexample: with `pip_increment = 0` (and an otherwise ordinary
configuration) `calculate_trade_details` does not fail — it silently
returns the fallback minimum lot size 0.01, with stop equal to entry. -/
theorem C6_counterexample :
    (calculate_trade_details (11 / 10) TradeDir.sellLimit 0 10 10000
        1).lot_size = 1 / 100 ∧
    (calculate_trade_details (11 / 10) TradeDir.sellLimit 0 10 10000 1).sl =
      11 / 10 := by
  constructor <;>
    norm_num [calculate_trade_details, stop_price, target_price, sl_buffer,
      tp_buffer, loss_pips, lot_size_raw, round2_hundredth,
      round2_one_div_hundred]

/-- C6 amended: for every entry, direction and risk inputs,
`calculate_trade_details` with `pip_increment = 0` raises no error and
returns stop = target = entry, zero reported distances, and the fallback
minimum lot size 0.01; invalid configurations are never surfaced to the
caller. -/
theorem C6_invalid_config_silent (entry : ℚ) (d : TradeDir)
    (pip_value account_balance risk_percent : ℚ) :
    calculate_trade_details entry d 0 pip_value account_balance
        risk_percent = ⟨entry, entry, 1 / 100, 0, 0⟩ := by
  cases d <;>
    simp [calculate_trade_details, stop_price, target_price, sl_buffer,
      tp_buffer, loss_pips, lot_size_raw, round2_hundredth]

/-- C1: on the spec's example (entry 1.1000, Sell, pip 0.0001, balance
10000 at 1% so that risk_amount = 100, pip value 10) the calculator
returns stop 1.1010, target 1.0980, loss of 10 pips and lot size 1.00;
and in general, with a positive pip increment, a short's stop lies 10 pips
above the entry and its target 20 pips below, with the inverse for a
long. -/
theorem C1_trade_setup_calculator :
    (calculate_trade_details (11 / 10) TradeDir.sellLimit (1 / 10000) 10
        10000 1 = ⟨1101 / 1000, 549 / 500, 1, 1 / 500, 1 / 1000⟩ ∧
      risk_amount 10000 1 = 100 ∧
      loss_pips (11 / 10)
        (stop_price (11 / 10) TradeDir.sellLimit (1 / 10000)) (1 / 10000) =
        10) ∧
    ∀ entry pip_increment pip_value account_balance risk_percent : ℚ,
      0 < pip_increment →
      (entry <
          (calculate_trade_details entry TradeDir.sellLimit pip_increment
            pip_value account_balance risk_percent).sl ∧
        (calculate_trade_details entry TradeDir.sellLimit pip_increment
            pip_value account_balance risk_percent).tp < entry ∧
        stop_price entry TradeDir.sellLimit pip_increment =
          entry + pip_increment * 10 ∧
        target_price entry TradeDir.sellLimit pip_increment =
          entry - pip_increment * 20) ∧
      ((calculate_trade_details entry TradeDir.buyLimit pip_increment
            pip_value account_balance risk_percent).sl < entry ∧
        entry <
          (calculate_trade_details entry TradeDir.buyLimit pip_increment
            pip_value account_balance risk_percent).tp ∧
        stop_price entry TradeDir.buyLimit pip_increment =
          entry - pip_increment * 10 ∧
        target_price entry TradeDir.buyLimit pip_increment =
          entry + pip_increment * 20) := by
  have habs : |(1 : ℚ) / 1000| = 1 / 1000 := abs_of_pos (by norm_num)
  constructor
  · refine ⟨?_, by norm_num [risk_amount], ?_⟩
    · norm_num [calculate_trade_details, stop_price, target_price,
        sl_buffer, tp_buffer, risk_amount, loss_pips, lot_size_raw,
        habs, round2_one]
    · norm_num [loss_pips, stop_price, sl_buffer, habs]
  · intro entry pip pv ab rp hp
    refine ⟨⟨?_, ?_, rfl, rfl⟩, ?_, ?_, rfl, rfl⟩ <;>
      simp [calculate_trade_details, stop_price, target_price, sl_buffer,
        tp_buffer] <;>
      linarith

/-- Witness for C1's general clause at entry 1.1000 and pip 0.0001. -/
theorem C1_witness :
    (0 : ℚ) < 1 / 10000 ∧
    (11 / 10 <
        (calculate_trade_details (11 / 10) TradeDir.sellLimit (1 / 10000) 10
          10000 1).sl ∧
      (calculate_trade_details (11 / 10) TradeDir.sellLimit (1 / 10000) 10
          10000 1).tp < 11 / 10 ∧
      stop_price (11 / 10) TradeDir.sellLimit (1 / 10000) =
        11 / 10 + 1 / 10000 * 10 ∧
      target_price (11 / 10) TradeDir.sellLimit (1 / 10000) =
        11 / 10 - 1 / 10000 * 20) :=
  ⟨by norm_num,
    (C1_trade_setup_calculator.2 (11 / 10) (1 / 10000) 10 10000 1
      (by norm_num)).1⟩

/-- C10: for every symbol, open, close and lot size, the profit
calculator's Sell result is exactly the negation of its Buy result: the
units agree and the price differences have opposite sign, and Python's
banker's rounding commutes with negation. -/
theorem C10_profit_sell_neg_buy (symbol : String)
    (open_price close_price lot_size : ℚ) :
    calculate_profit symbol "Sell" open_price close_price lot_size =
      -calculate_profit symbol "Buy" open_price close_price lot_size := by
  have key : ∀ u : ℚ, round2 (u * (open_price - close_price)) =
      -round2 (u * (close_price - open_price)) := by
    intro u
    rw [show u * (open_price - close_price) =
        -(u * (close_price - open_price)) by ring, round2_neg]
  show round2
      ((if strContains symbol "USD" && !strContains symbol "BTC" then
          lot_size * 100000 else lot_size) * (open_price - close_price)) =
    -round2
      ((if strContains symbol "USD" && !strContains symbol "BTC" then
          lot_size * 100000 else lot_size) * (close_price - open_price))
  by_cases hu : (strContains symbol "USD" && !strContains symbol "BTC") = true
  · rw [if_pos hu]
    exact key _
  · rw [if_neg hu]
    exact key _

/-- C3 counterexample: on 15 identical closes the RSI window has
`avg_loss = 0`, yet `get_rsi` does not return the saturated value 100 —
the 0/0 ratio propagates as NaN (`none`). -/
theorem C3_counterexample :
    avg_loss flat15 14 14 = 0 ∧ get_rsi flat15 14 14 = none := by
  have hd : ∀ j : ℕ, j < 15 → delta flat15 j = 0 := by
    intro j hj
    have hj2 : j - 1 < 15 := by omega
    unfold delta flat15
    rw [getD_replicate _ _ _ _ hj, getD_replicate _ _ _ _ hj2]
    norm_num
  have hloss : avg_loss flat15 14 14 = 0 := by
    unfold avg_loss
    rw [List.sum_eq_zero]
    · norm_num
    · intro x hx
      simp only [List.mem_map, List.mem_range] at hx
      obtain ⟨k, hk, rfl⟩ := hx
      rw [hd (14 - k) (by omega)]
      norm_num
  have hgain : avg_gain flat15 14 14 = 0 := by
    unfold avg_gain
    rw [List.sum_eq_zero]
    · norm_num
    · intro x hx
      simp only [List.mem_map, List.mem_range] at hx
      obtain ⟨k, hk, rfl⟩ := hx
      rw [hd (14 - k) (by omega)]
      norm_num
  refine ⟨hloss, ?_⟩
  unfold get_rsi
  rw [if_neg (by simp [flat15] : ¬(14 < 14 ∨ flat15.length ≤ 14))]
  simp [hloss, hgain]

/-- C3 amended: whenever the RSI window is complete and `avg_loss = 0`
while `avg_gain > 0`, `get_rsi` returns the saturated value 100; but when
both averages are 0 (flat closes) the result is a propagated NaN, on which
every band comparison is (vacuously) False. -/
theorem C3_rsi_saturation_amended (cs : List ℚ) (period i : ℕ)
    (h1 : period ≤ i) (h2 : i < cs.length)
    (hl : avg_loss cs period i = 0) (hg : 0 < avg_gain cs period i) :
    get_rsi cs period i = some 100 := by
  unfold get_rsi
  rw [if_neg (by omega : ¬(i < period ∨ cs.length ≤ i))]
  simp [hl, hg]

/-- Witness for C3's amended statement on 15 strictly increasing closes. -/
theorem C3_witness :
    (14 ≤ 14 ∧ 14 < incr15.length ∧ avg_loss incr15 14 14 = 0 ∧
      0 < avg_gain incr15 14 14) ∧
    get_rsi incr15 14 14 = some 100 := by
  have hlen : incr15.length = 15 := by norm_num [incr15]
  have hloss : avg_loss incr15 14 14 = 0 := by
    norm_num [avg_loss, delta, incr15, List.range_succ, max_def]
  have hgain : avg_gain incr15 14 14 = 1 := by
    norm_num [avg_gain, delta, incr15, List.range_succ, max_def]
  exact ⟨⟨le_refl 14, by omega, hloss, by rw [hgain]; norm_num⟩,
    C3_rsi_saturation_amended incr15 14 14 (le_refl 14) (by omega) hloss
      (by rw [hgain]; norm_num)⟩

/-- C9 counterexample: on 14 flat candles, ATR with period 14 is already
defined at index 13 (= period - 1), because the true range at row 0
degenerates to `High - Low` instead of NaN; the claim says every index
< 14 is undefined. -/
theorem C9_counterexample : get_atr atrFlat 14 13 = some 0 := by
  have htr : ∀ j : ℕ, j < 14 → true_range atrFlat j = 0 := by
    intro j hj
    have hjm : j - 1 < 14 := by omega
    simp only [true_range, atrFlat]
    by_cases h : j = 0
    · rw [if_pos h, getD_replicate _ _ _ _ hj]
      norm_num [flatC]
    · rw [if_neg h, getD_replicate _ _ _ _ hj, getD_replicate _ _ _ _ hjm]
      norm_num [flatC]
  unfold get_atr
  rw [if_neg (by simp [atrFlat] : ¬(13 + 1 < 14 ∨ atrFlat.length ≤ 13))]
  have hsum : ((List.range 14).map fun k => true_range atrFlat (13 - k)).sum
      = 0 := by
    apply List.sum_eq_zero
    intro x hx
    simp only [List.mem_map, List.mem_range] at hx
    obtain ⟨k, hk, rfl⟩ := hx
    exact htr _ (by omega)
  rw [hsum]
  norm_num

/-- C9 amended: `get_atr` is undefined exactly below index `period - 1`
(and out of range), and first takes a value at index `period - 1`; with
period 14 it is undefined for indices < 13, not < 14. -/
theorem C9_atr_warmup_amended (df : List Candle) (period i : ℕ)
    (hp : 1 ≤ period) :
    get_atr df period i ≠ none ↔ period - 1 ≤ i ∧ i < df.length := by
  unfold get_atr
  by_cases h : i + 1 < period ∨ df.length ≤ i
  · rw [if_pos h]
    constructor
    · intro hn
      exact absurd rfl hn
    · intro hand heq
      omega
  · rw [if_neg h]
    constructor
    · intro _
      push_neg at h
      omega
    · intro _
      exact Option.some_ne_none _

/-- Witness for C9's amended statement on the 14 flat candles. -/
theorem C9_witness :
    1 ≤ 14 ∧
      (get_atr atrFlat 14 13 ≠ none ↔ 14 - 1 ≤ 13 ∧ 13 < atrFlat.length) :=
  ⟨by norm_num, C9_atr_warmup_amended atrFlat 14 13 (by norm_num)⟩

/-- C4: at every index `i ≥ 2` of a series with well-formed reference
candle (`low ≤ high`), the FVG detector emits the bearish gap tuple iff
`open[i] > high[i-2]`, the bullish gap tuple iff `open[i] < low[i-2]`, and
nothing otherwise; on the spec §8 series it emits exactly one bearish
signal at index 2 whose derived entry price is 1.101. -/
theorem C4_fvg_characterisation :
    (∀ (df : List Candle) (i : ℕ), 2 ≤ i → i < df.length →
      (df.getD (i - 2) dC).l ≤ (df.getD (i - 2) dC).h →
      (fvgAt df i =
          some (i, FvgDir.bearish, (df.getD (i - 2) dC).h,
            (df.getD i dC).o) ↔
        (df.getD (i - 2) dC).h < (df.getD i dC).o) ∧
      (fvgAt df i =
          some (i, FvgDir.bullish, (df.getD i dC).o,
            (df.getD (i - 2) dC).l) ↔
        (df.getD i dC).o < (df.getD (i - 2) dC).l) ∧
      (fvgAt df i = none ↔
        ¬(df.getD (i - 2) dC).h < (df.getD i dC).o ∧
          ¬(df.getD i dC).o < (df.getD (i - 2) dC).l)) ∧
    detect_fair_value_gaps fvgExample =
      [(2, FvgDir.bearish, 1100 / 1000, 1102 / 1000)] ∧
    fvg_entry (2, FvgDir.bearish, 1100 / 1000, 1102 / 1000) = 1101 / 1000 := by
  refine ⟨?_, ?_, by norm_num [fvg_entry]⟩
  · intro df i h2 hlen hwf
    simp only [fvgAt]
    generalize hph : (df.getD (i - 2) dC).h = ph at hwf ⊢
    generalize hpl : (df.getD (i - 2) dC).l = pl at hwf ⊢
    generalize hco : (df.getD i dC).o = co
    by_cases hb : ph < co
    · have hnl : ¬co < pl := by linarith
      rw [if_pos hb]
      exact ⟨by simp [hb], by simp [hnl], by simp [hb]⟩
    · rw [if_neg hb]
      by_cases hl2 : co < pl
      · rw [if_pos hl2]
        exact ⟨by simp [hb], by simp [hl2], by simp [hl2]⟩
      · rw [if_neg hl2]
        exact ⟨by simp [hb], by simp [hl2], by simp [hb, hl2]⟩
  · norm_num [detect_fair_value_gaps, fvgAt, fvgExample, List.range_succ,
      List.filterMap_cons, List.filterMap_nil]

/-- Witness for C4's per-index clause on the §8 example at index 2. -/
theorem C4_witness :
    (2 ≤ 2 ∧ 2 < fvgExample.length ∧
      (fvgExample.getD 0 dC).l ≤ (fvgExample.getD 0 dC).h) ∧
    ((fvgAt fvgExample 2 =
        some (2, FvgDir.bearish, (fvgExample.getD 0 dC).h,
          (fvgExample.getD 2 dC).o) ↔
      (fvgExample.getD 0 dC).h < (fvgExample.getD 2 dC).o) ∧
      (fvgAt fvgExample 2 =
          some (2, FvgDir.bullish, (fvgExample.getD 2 dC).o,
            (fvgExample.getD 0 dC).l) ↔
        (fvgExample.getD 2 dC).o < (fvgExample.getD 0 dC).l) ∧
      (fvgAt fvgExample 2 = none ↔
        ¬(fvgExample.getD 0 dC).h < (fvgExample.getD 2 dC).o ∧
          ¬(fvgExample.getD 2 dC).o < (fvgExample.getD 0 dC).l)) :=
  ⟨⟨le_refl 2, by norm_num [fvgExample], by norm_num [fvgExample]⟩,
    C4_fvg_characterisation.1 fvgExample 2 (le_refl 2)
      (by norm_num [fvgExample]) (by norm_num [fvgExample])⟩

/-- C2: on a synchronized fast/slow pair whose extracted indicator scalars
are all defined, the multi-timeframe detector emits Buy exactly when
`30 < RSI_fast < 45`, `close > open`, `close ≤ support` and
`RSI_slow < 50`, and Sell exactly when `40 < RSI_fast < 55`,
`close < open`, `close ≥ resistance` and `RSI_slow > 50`, with these exact
strict/non-strict bounds. -/
theorem C2_mtf_reversal_bands (fast slow : List Candle)
    (rf rs sup res : ℚ) (lastC : Candle)
    (h1 : get_rsi (closes fast) 14 (fast.length - 1) = some rf)
    (h2 : get_rsi (closes slow) 14 (slow.length - 1) = some rs)
    (h3 : support? fast 20 = some sup)
    (h4 : resistance? fast 20 = some res)
    (h5 : fast.getLast? = some lastC) :
    (mtf_signal_of_series fast slow = some SigType.buy ↔
      30 < rf ∧ rf < 45 ∧ lastC.o < lastC.c ∧ lastC.c ≤ sup ∧ rs < 50) ∧
    (mtf_signal_of_series fast slow = some SigType.sell ↔
      40 < rf ∧ rf < 55 ∧ lastC.c < lastC.o ∧ res ≤ lastC.c ∧ 50 < rs) := by
  have hms : mtf_signal_of_series fast slow =
      mtf_signal rf rs lastC.c lastC.o sup res := by
    unfold mtf_signal_of_series
    rw [h1, h2, h3, h4, h5]
  rw [hms]
  unfold mtf_signal
  by_cases hb : 30 < rf ∧ rf < 45 ∧ lastC.o < lastC.c ∧ lastC.c ≤ sup ∧
      rs < 50
  · have hns : ¬(40 < rf ∧ rf < 55 ∧ lastC.c < lastC.o ∧ res ≤ lastC.c ∧
        50 < rs) := by
      rintro ⟨-, -, hco, -, -⟩
      exact absurd (lt_trans hb.2.2.1 hco) (lt_irrefl _)
    rw [if_pos hb]
    exact ⟨by simp [hb], by simp [hns]⟩
  · rw [if_neg hb]
    by_cases hs : 40 < rf ∧ rf < 55 ∧ lastC.c < lastC.o ∧ res ≤ lastC.c ∧
        50 < rs
    · rw [if_pos hs]
      exact ⟨by simp [hb], by simp [hs]⟩
    · rw [if_neg hs]
      exact ⟨by simp [hb], by simp [hs]⟩

/-- Witness for C2 on a concrete 21-bar alternating series (RSI = 50 on
both timeframes, support 0, resistance 3). -/
theorem C2_witness :
    (get_rsi (closes fastEx) 14 (fastEx.length - 1) = some 50 ∧
      support? fastEx 20 = some 0 ∧ resistance? fastEx 20 = some 3 ∧
      fastEx.getLast? = some (altC 20)) ∧
    ((mtf_signal_of_series fastEx fastEx = some SigType.buy ↔
        30 < (50 : ℚ) ∧ (50 : ℚ) < 45 ∧ (altC 20).o < (altC 20).c ∧
          (altC 20).c ≤ (0 : ℚ) ∧ (50 : ℚ) < 50) ∧
      (mtf_signal_of_series fastEx fastEx = some SigType.sell ↔
        40 < (50 : ℚ) ∧ (50 : ℚ) < 55 ∧ (altC 20).c < (altC 20).o ∧
          (3 : ℚ) ≤ (altC 20).c ∧ (50 : ℚ) < 50)) := by
  have hg : avg_gain (closes fastEx) 14 20 = 1 / 2 := by
    norm_num [avg_gain, delta, closes, fastEx, altC, List.range_succ,
      max_def]
  have hl : avg_loss (closes fastEx) 14 20 = 1 / 2 := by
    norm_num [avg_loss, delta, closes, fastEx, altC, List.range_succ,
      max_def]
  have hrsi : get_rsi (closes fastEx) 14 (fastEx.length - 1) = some 50 := by
    show get_rsi (closes fastEx) 14 20 = some 50
    simp only [get_rsi]
    rw [if_neg (by norm_num [closes, fastEx] :
      ¬(20 < 14 ∨ (closes fastEx).length ≤ 20)), hg, hl,
      if_pos (by norm_num : (0 : ℚ) < 1 / 2)]
    norm_num
  have hsup : support? fastEx 20 = some 0 := by
    norm_num [support?, wmin, fastEx, altC, List.range_succ, min_def]
  have hres : resistance? fastEx 20 = some 3 := by
    norm_num [resistance?, wmax, fastEx, altC, List.range_succ, max_def]
  have hlast : fastEx.getLast? = some (altC 20) := by
    simp only [fastEx, List.range_succ, List.map_append]
    simp
  exact ⟨⟨hrsi, hsup, hres, hlast⟩,
    C2_mtf_reversal_bands fastEx fastEx 50 50 0 3 (altC 20) hrsi hrsi hsup
      hres hlast⟩

/-- C5 amended: in the liquidity/breakout loop body the rolling extrema
references are taken at the prior bar `i - 1`, but the rolling mean volume
is taken at the current bar `i`: each block equals the direct window
computation with extrema over bars `i-20 .. i-1` and mean volume over bars
`i-19 .. i`. -/
theorem C5_liquidity_windows_amended (df : List Candle) (i : ℕ)
    (h20 : 20 ≤ i) (hlen : i < df.length) :
    liqBlock df i = liqBlockWindows df i := by
  have h1 : i - 1 < (df.map Candle.h).length := by simp; omega
  have h1l : i - 1 < (df.map Candle.l).length := by simp; omega
  have hv : i < (df.map Candle.v).length := by simp; omega
  have hw1 : 20 ≤ i - 1 + 1 := by omega
  have hw2 : 20 ≤ i + 1 := by omega
  have e1 := rollApply_getD wmax 20 (df.map Candle.h) (i - 1) h1 hw1
  have e2 := rollApply_getD wmin 20 (df.map Candle.l) (i - 1) h1l hw1
  have e3 := rollApply_getD wmean 20 (df.map Candle.v) i hv hw2
  have hidx : i - 1 + 1 - 20 = i - 20 := by omega
  rw [hidx] at e1 e2
  simp only [liqBlock, liqBlockWindows, e1, e2, e3]

/-- Witness for C5's amended statement at index 20 of the 21-bar example
series. -/
theorem C5_witness :
    (20 ≤ 20 ∧ 20 < liqExample.length) ∧
    liqBlock liqExample 20 = liqBlockWindows liqExample 20 :=
  ⟨⟨le_refl 20, by norm_num [liqExample]⟩,
    C5_liquidity_windows_amended liqExample 20 (le_refl 20)
      (by norm_num [liqExample])⟩

/-- C5 counterexample: on the 21-bar series with a volume spike at bar 0,
the detector fires a bullish breakout at index 20 (mean volume taken at
bar 20 excludes the spike), whereas the claimed prior-bar volume reference
would suppress it — so the detector does not implement the claimed
`vol_mean[i-1]` filter. -/
theorem C5_counterexample :
    detect_liquidity liqExample = [(20, LiqKind.breakBull, 2)] ∧
    detect_liquidity_claimed liqExample = [] := by
  have hlen : liqExample.length = 21 := by norm_num [liqExample]
  have hdrop : (List.range 21).drop 20 = [20] := by decide
  have hmax : (rollApply wmax 20 (liqExample.map Candle.h)).getD 19 none =
      some 1 := by
    rw [rollApply_getD _ _ _ _ (by norm_num [liqExample]) (by norm_num)]
    norm_num [liqExample, flatC, wmax, max_def, foldr_max_replicate]
  have hmin : (rollApply wmin 20 (liqExample.map Candle.l)).getD 19 none =
      some 1 := by
    rw [rollApply_getD _ _ _ _ (by norm_num [liqExample]) (by norm_num)]
    norm_num [liqExample, flatC, wmin, min_def, foldr_min_replicate]
  have hmean20 : (rollApply wmean 20 (liqExample.map Candle.v)).getD 20 none
      = some (21 / 20) := by
    rw [rollApply_getD _ _ _ _ (by norm_num [liqExample]) (by norm_num)]
    norm_num [liqExample, flatC, wmean]
  have hmean19 : (rollApply wmean 20 (liqExample.map Candle.v)).getD 19 none
      = some (119 / 20) := by
    rw [rollApply_getD _ _ _ _ (by norm_num [liqExample]) (by norm_num)]
    norm_num [liqExample, flatC, wmean]
  have hcur : liqExample.getD 20 dC = ⟨1, 2, 1, 2, 2⟩ := by
    norm_num [liqExample, flatC]
  constructor
  · unfold detect_liquidity
    rw [hlen, hdrop]
    simp only [List.flatMap_cons, List.flatMap_nil, List.append_nil]
    simp only [liqBlock]
    rw [show (20 : ℕ) - 1 = 19 by norm_num, hmax, hmin, hmean20, hcur]
    norm_num
  · unfold detect_liquidity_claimed
    rw [hlen, hdrop]
    simp only [List.flatMap_cons, List.flatMap_nil, List.append_nil]
    simp only [liqBlockClaimed]
    rw [show (20 : ℕ) - 1 = 19 by norm_num, hmax, hmin, hmean19, hcur]
    norm_num

end TorBot
